import Mathlib

/-!
# VulkanTest/main.cpp: instance creation and device selection

A shallow embedding of `HelloTriangleApplication` (src/VulkanTest/main.cpp).

* The graphics runtime and the windowing library are external; everything
  they answer is collected in a `Runtime` record that the member functions
  take as an argument.
* Member functions that change the object return the new object; every
  function also returns the list of runtime calls it made, in order.
* Loops that the source does not bound (`checkValidationLayerSupport`,
  `mainLoop`) take a fuel argument and return `none` when it runs out.
* Exceptions and undefined reads are values of `Failure`.
* Console output (`std::cout`, `std::cerr`) is not recorded.
-/

namespace VulkanTest

/-! ## Constants -/

/-- Line 12. -/
def WIDTH : Nat := 1600

/-- Line 13. -/
def HEIGHT : Nat := 900

/-- Lines 15-17. -/
def validationLayers : List String := ["VK_LAYER_KHRONOS_validation"]

/-- Null value of every runtime handle type (`VK_NULL_HANDLE`, `nullptr`). -/
def VK_NULL_HANDLE : Nat := 0

/-- The `VkResult` code of success (vulkan_core.h). -/
def VK_SUCCESS : Int := 0

/-- The graphics bit of `VkQueueFlagBits` (vulkan_core.h). -/
def VK_QUEUE_GRAPHICS_BIT : Nat := 0x1

/-- The compute bit of `VkQueueFlagBits` (vulkan_core.h). -/
def VK_QUEUE_COMPUTE_BIT : Nat := 0x2

/-- The transfer bit of `VkQueueFlagBits` (vulkan_core.h). -/
def VK_QUEUE_TRANSFER_BIT : Nat := 0x4

/-- The macro `VK_MAKE_VERSION(major, minor, patch)` (vulkan_core.h). -/
def VK_MAKE_VERSION (major minor patch : Nat) : Nat :=
  ((major <<< 22) ||| (minor <<< 12) ||| patch) % 2 ^ 32

/-- The constant `VK_API_VERSION_1_0` (vulkan_core.h). -/
def VK_API_VERSION_1_0 : Nat := VK_MAKE_VERSION 1 0 0

/-- Window hint names and values (glfw3.h). -/
def GLFW_CLIENT_API : Nat := 0x00022001

/-- Window hint value (glfw3.h). -/
def GLFW_NO_API : Nat := 0

/-- Window hint name (glfw3.h). -/
def GLFW_RESIZABLE : Nat := 0x00020003

/-- Window hint value (glfw3.h). -/
def GLFW_FALSE : Nat := 0

/-- Number of values of `uint32_t`. -/
def UINT32_SIZE : Nat := 2 ^ 32

/-- Largest value of `int`. -/
def INT_MAX : Nat := 2 ^ 31 - 1

/-! ## Data model -/

/-- Ways a member function ends other than by returning normally. -/
inductive Failure where
  /-- A `throw std::runtime_error(what)`. -/
  | runtime_error (what : String)
  /-- A call of `std::optional::value()` on an empty optional. -/
  | bad_optional_access
  /-- An `operator[]` of a vector past its end. -/
  | out_of_bounds
  /-- A branch on a member that was never assigned. -/
  | indeterminate_read
  deriving DecidableEq, Repr

/-- A handle-typed data member. A member that no code has assigned yet holds
no defined value. -/
inductive Slot where
  | indeterminate
  | val (h : Nat)
  deriving DecidableEq, Repr

/-- Lines 25-31. -/
structure QueueFamilyIndices where
  graphicsFamily : Option Nat := none
  deriving DecidableEq, Repr

/-- Lines 28-30. -/
def QueueFamilyIndices.isComplete (indices : QueueFamilyIndices) : Bool :=
  indices.graphicsFamily.isSome

/-- The fields of `VkQueueFamilyProperties` that the program reads or that
tell two families apart. -/
structure VkQueueFamilyProperties where
  queueFlags : Nat
  queueCount : Nat := 1
  deriving DecidableEq, Repr

/-- The one `VkPhysicalDeviceFeatures` member the program reads. A `VkBool32`
reported by the runtime is `VK_TRUE` or `VK_FALSE`. -/
structure VkPhysicalDeviceFeatures where
  geometryShader : Bool
  deriving DecidableEq, Repr

/-- Some members of `VkPhysicalDeviceProperties`; the program fetches the record
and reads none of them. -/
structure VkPhysicalDeviceProperties where
  deviceType : Nat
  deviceName : String
  deriving DecidableEq, Repr

/-- Lines 88-94. -/
structure VkApplicationInfo where
  pApplicationName : String
  applicationVersion : Nat
  pEngineName : String
  engineVersion : Nat
  apiVersion : Nat
  deriving DecidableEq, Repr

/-- Lines 96-114; a (count, pointer) pair of the C structure is one list. -/
structure VkInstanceCreateInfo where
  pApplicationInfo : VkApplicationInfo
  ppEnabledExtensionNames : List String
  ppEnabledLayerNames : List String
  deriving DecidableEq, Repr

/-- Lines 227-234. The value of a `float` priority is kept as a rational. -/
structure VkDeviceQueueCreateInfo where
  queueFamilyIndex : Nat
  queueCount : Nat
  pQueuePriorities : List Rat
  deriving DecidableEq, Repr

/-- Lines 237-252; a (count, pointer) pair of the C structure is one list. -/
structure VkDeviceCreateInfo where
  pQueueCreateInfos : List VkDeviceQueueCreateInfo
  pEnabledFeatures : VkPhysicalDeviceFeatures
  ppEnabledExtensionNames : List String
  ppEnabledLayerNames : List String
  deriving DecidableEq, Repr

/-- A call into the graphics runtime or the windowing library, with the
handle arguments it was given. -/
inductive Call where
  | glfwInit
  | glfwWindowHint (hint value : Nat)
  | glfwCreateWindow (width height : Nat) (title : String)
  | glfwWindowShouldClose (window : Slot)
  | glfwPollEvents
  | glfwDestroyWindow (window : Slot)
  | glfwTerminate
  | glfwGetRequiredInstanceExtensions
  | glfwCreateWindowSurface (instanceHandle window : Slot)
  | vkEnumerateInstanceLayerProperties
  | vkCreateInstance (createInfo : VkInstanceCreateInfo)
  | vkEnumeratePhysicalDevices (instanceHandle : Slot)
  | vkGetPhysicalDeviceProperties (device : Nat)
  | vkGetPhysicalDeviceFeatures (device : Nat)
  | vkGetPhysicalDeviceQueueFamilyProperties (device : Nat)
  | vkDestroySurfaceKHR (instanceHandle surface : Slot)
  | vkDestroyInstance (instanceHandle : Slot)
  | vkDestroyDevice (device : Slot)
  deriving DecidableEq, Repr

/-- What the graphics runtime and the windowing library answer. -/
structure Runtime where
  /-- Layer names listed by `vkEnumerateInstanceLayerProperties`. -/
  availableLayers : List String
  /-- Names returned by `glfwGetRequiredInstanceExtensions`. -/
  requiredInstanceExtensions : List String
  /-- Result code of `vkCreateInstance` and the handle it writes on success. -/
  createInstanceResult : VkInstanceCreateInfo → Int × Nat
  /-- Handles listed by `vkEnumeratePhysicalDevices`, in the order reported. -/
  physicalDevices : List Nat
  /-- Answer of `vkGetPhysicalDeviceProperties`. -/
  deviceProperties : Nat → VkPhysicalDeviceProperties
  /-- Answer of `vkGetPhysicalDeviceFeatures`. -/
  deviceFeatures : Nat → VkPhysicalDeviceFeatures
  /-- Families listed by `vkGetPhysicalDeviceQueueFamilyProperties`, in the
  order reported. -/
  queueFamilies : Nat → List VkQueueFamilyProperties
  /-- Handle returned by `glfwCreateWindow`. -/
  createdWindow : Nat
  /-- Result code of `glfwCreateWindowSurface` and the handle it writes on
  success. -/
  createSurfaceResult : Int × Nat
  /-- Answer of the k-th call of `glfwWindowShouldClose`, counted from 0. -/
  windowShouldClose : Nat → Bool

/-- Data members of the class, lines 265-271. -/
structure HelloTriangleApplication where
  window : Slot
  instanceHandle : Slot
  device : Slot
  physicalDevice : Slot
  graphicsQueue : Slot
  surface : Slot
  presentQueue : Slot
  deriving DecidableEq, Repr

/-- The object before its constructor body runs: no member has a value. -/
def HelloTriangleApplication.storage : HelloTriangleApplication :=
  { window := .indeterminate, instanceHandle := .indeterminate, device := .indeterminate,
    physicalDevice := .indeterminate, graphicsQueue := .indeterminate,
    surface := .indeterminate, presentQueue := .indeterminate }

/-- Constructor, lines 35-40: four members are assigned. -/
def HelloTriangleApplication.new : HelloTriangleApplication :=
  { HelloTriangleApplication.storage with
    window := .val VK_NULL_HANDLE
    instanceHandle := .val VK_NULL_HANDLE
    device := .val VK_NULL_HANDLE
    physicalDevice := .val VK_NULL_HANDLE }

/-! ## checkValidationLayerSupport, lines 121-148 -/

/-- Inner loop, lines 135-140, entered with `hasLayer = false`: the loop
variable is `j`, the increment is `i++`, and both vectors are indexed by `j`.
Returns the final `hasLayer` and `i`. -/
def layerInnerLoop (requested available : List String) :
    Nat → Nat → Nat → Option (Except Failure (Bool × Nat))
  | 0, _, _ => none
  | fuel + 1, i, j =>
    if j < available.length then
      match available[j]?, requested[j]? with
      | some layerName, some wanted =>
        if layerName = wanted then some (.ok (true, i))
        else layerInnerLoop requested available fuel ((i + 1) % UINT32_SIZE) j
      | _, _ => some (.error .out_of_bounds)
    else some (.ok (false, i))

/-- Outer loop, lines 133-145, and the `return true` of line 147. -/
def layerOuterLoop (requested available : List String) :
    Nat → Nat → Option (Except Failure Bool)
  | 0, _ => none
  | fuel + 1, i =>
    if i < requested.length then
      match layerInnerLoop requested available fuel i 0 with
      | none => none
      | some (.error e) => some (.error e)
      | some (.ok (hasLayer, i)) =>
        if !hasLayer then some (.ok false)
        else layerOuterLoop requested available fuel ((i + 1) % UINT32_SIZE)
    else some (.ok true)

/-- Lines 121-148. `none`: the fuel ran out before the function returned. -/
def checkValidationLayerSupport (fuel : Nat) (rt : Runtime) :
    Option (Except Failure Bool × List Call) :=
  let availableLayers := rt.availableLayers
  match layerOuterLoop validationLayers availableLayers fuel 0 with
  | none => none
  | some r =>
    some (r, [Call.vkEnumerateInstanceLayerProperties, Call.vkEnumerateInstanceLayerProperties])

/-! ## findQueueFamilies, lines 196-220 -/

/-- Line 209: `queueFamily.queueFlags & VK_QUEUE_GRAPHICS_BIT`. -/
def hasGraphicsBit (queueFamily : VkQueueFamilyProperties) : Bool :=
  queueFamily.queueFlags &&& VK_QUEUE_GRAPHICS_BIT != 0

/-- Loop of lines 208-218 with the `int i` counter of line 206; the
assignment of line 210 converts `i` to `uint32_t`. -/
def findQueueFamiliesLoop :
    List VkQueueFamilyProperties → Nat → QueueFamilyIndices → QueueFamilyIndices
  | [], _, indices => indices
  | queueFamily :: rest, i, indices =>
    let indices :=
      if hasGraphicsBit queueFamily then { indices with graphicsFamily := some (i % UINT32_SIZE) }
      else indices
    if indices.isComplete then indices
    else findQueueFamiliesLoop rest (i + 1) indices

/-- Lines 196-220. -/
def findQueueFamilies (rt : Runtime) (device : Nat) : QueueFamilyIndices × List Call :=
  let queueFamilies := rt.queueFamilies device
  (findQueueFamiliesLoop queueFamilies 0 {},
   [Call.vkGetPhysicalDeviceQueueFamilyProperties device,
    Call.vkGetPhysicalDeviceQueueFamilyProperties device])

/-! ## isDeviceSuitable, lines 182-194 -/

/-- Lines 182-194. -/
def isDeviceSuitable (rt : Runtime) (device : Nat) : Bool × List Call :=
  let _deviceProperties := rt.deviceProperties device
  let deviceFeatures := rt.deviceFeatures device
  let (indices, calls) := findQueueFamilies rt device
  (deviceFeatures.geometryShader && indices.isComplete,
   [Call.vkGetPhysicalDeviceProperties device, Call.vkGetPhysicalDeviceFeatures device] ++ calls)

/-! ## pickPhysicalDevice, lines 153-180 -/

/-- Loop of lines 170-175 over `devices[i]`, `i = 0, 1, ...`: the value of
`physicalDevice` after the loop and the calls made. -/
def pickPhysicalDeviceLoop (rt : Runtime) : List Nat → Slot → Slot × List Call
  | [], physicalDevice => (physicalDevice, [])
  | device :: rest, physicalDevice =>
    let (suitable, calls) := isDeviceSuitable rt device
    if suitable then (.val device, calls)
    else
      let (physicalDevice, more) := pickPhysicalDeviceLoop rt rest physicalDevice
      (physicalDevice, calls ++ more)

/-- Lines 153-180. The test of line 177 reads `physicalDevice`; on a member
that was never assigned it has no defined outcome. -/
def pickPhysicalDevice (rt : Runtime) (app : HelloTriangleApplication) :
    Except Failure Unit × HelloTriangleApplication × List Call :=
  let devices := rt.physicalDevices
  let deviceCount := devices.length
  let counted := [Call.vkEnumeratePhysicalDevices app.instanceHandle]
  if deviceCount = 0 then
    (.error (.runtime_error "Failed to find GPUs with Vulkan support!"), app, counted)
  else
    let listed := counted ++ [Call.vkEnumeratePhysicalDevices app.instanceHandle]
    let (physicalDevice, calls) := pickPhysicalDeviceLoop rt devices app.physicalDevice
    let app := { app with physicalDevice := physicalDevice }
    match physicalDevice with
    | .indeterminate => (.error .indeterminate_read, app, listed ++ calls)
    | .val h =>
      if h = VK_NULL_HANDLE then
        (.error (.runtime_error "failed to find a suitable GPU!"), app, listed ++ calls)
      else (.ok (), app, listed ++ calls)

/-! ## createInstance, lines 83-119 -/

/-- The `createInfo` assembled in lines 88-114. `enabledLayerCount` stays at
the zero of `VkInstanceCreateInfo createInfo{}` when line 111 is false. -/
def instanceCreateInfo (enableValidationLayers : Bool) (rt : Runtime) : VkInstanceCreateInfo :=
  let appInfo : VkApplicationInfo :=
    { pApplicationName := " Hello Triangle"
      applicationVersion := VK_MAKE_VERSION 1 0 0
      pEngineName := "No Engine"
      engineVersion := VK_MAKE_VERSION 1 0 0
      apiVersion := VK_API_VERSION_1_0 }
  let glfwExtensions := rt.requiredInstanceExtensions
  { pApplicationInfo := appInfo
    ppEnabledExtensionNames := glfwExtensions
    ppEnabledLayerNames := if enableValidationLayers then validationLayers else [] }

/-- Lines 88-118, the part of `createInstance` after the layer check. When
`vkCreateInstance` does not answer `VK_SUCCESS` the member `instance` is left
as it was. -/
def createInstanceBody (enableValidationLayers : Bool) (rt : Runtime)
    (app : HelloTriangleApplication) :
    Except Failure Unit × HelloTriangleApplication × List Call :=
  let createInfo := instanceCreateInfo enableValidationLayers rt
  let calls := [Call.glfwGetRequiredInstanceExtensions, Call.vkCreateInstance createInfo]
  let (result, handle) := rt.createInstanceResult createInfo
  if result ≠ VK_SUCCESS then
    (.error (.runtime_error "Failed to create instance!"), app, calls)
  else (.ok (), { app with instanceHandle := .val handle }, calls)

/-- Lines 83-119. `enableValidationLayers` is the constant of lines 19-23,
fixed by the build. The `&&` of line 84 calls `checkValidationLayerSupport`
only when `enableValidationLayers` is true. -/
def createInstance (enableValidationLayers : Bool) (fuel : Nat) (rt : Runtime)
    (app : HelloTriangleApplication) :
    Option (Except Failure Unit × HelloTriangleApplication × List Call) :=
  if enableValidationLayers then
    match checkValidationLayerSupport fuel rt with
    | none => none
    | some (.error e, checked) => some (.error e, app, checked)
    | some (.ok supported, checked) =>
      if !supported then
        some (.error (.runtime_error "Validation layers requested, but not available!"),
              app, checked)
      else
        let (r, app, calls) := createInstanceBody enableValidationLayers rt app
        some (r, app, checked ++ calls)
  else some (createInstanceBody enableValidationLayers rt app)

/-! ## createLogicalDevice, lines 222-256 -/

/-- Line 233, `1.0f`. -/
def queuePriority : Rat := 1

/-- Lines 222-256. The function stores nothing and returns nothing; the
`createInfo` it has assembled when it returns is given back here. -/
def createLogicalDevice (enableValidationLayers : Bool) (rt : Runtime)
    (app : HelloTriangleApplication) : Except Failure VkDeviceCreateInfo × List Call :=
  match app.physicalDevice with
  | .indeterminate => (.error .indeterminate_read, [])
  | .val physicalDevice =>
    let (indices, calls) := findQueueFamilies rt physicalDevice
    let deviceFeatures : VkPhysicalDeviceFeatures := { geometryShader := false }
    match indices.graphicsFamily with
    | none => (.error .bad_optional_access, calls)
    | some graphicsFamily =>
      let queueCreateInfo : VkDeviceQueueCreateInfo :=
        { queueFamilyIndex := graphicsFamily
          queueCount := 1
          pQueuePriorities := [queuePriority] }
      let createInfo : VkDeviceCreateInfo :=
        { pQueueCreateInfos := [queueCreateInfo]
          pEnabledFeatures := deviceFeatures
          ppEnabledExtensionNames := []
          ppEnabledLayerNames := if enableValidationLayers then validationLayers else [] }
      (.ok createInfo, calls)

/-! ## createSurface, lines 258-263 -/

/-- Lines 258-263. No function of the program calls it. -/
def createSurface (rt : Runtime) (app : HelloTriangleApplication) :
    Except Failure Unit × HelloTriangleApplication × List Call :=
  let calls := [Call.glfwCreateWindowSurface app.instanceHandle app.window]
  let (result, handle) := rt.createSurfaceResult
  if result ≠ VK_SUCCESS then
    (.error (.runtime_error "failed to create window surface!"), app, calls)
  else (.ok (), { app with surface := .val handle }, calls)

/-! ## run and its steps, lines 42-81 -/

/-- Lines 50-56. -/
def initWindow (rt : Runtime) (app : HelloTriangleApplication) :
    HelloTriangleApplication × List Call :=
  ({ app with window := .val rt.createdWindow },
   [Call.glfwInit,
    Call.glfwWindowHint GLFW_CLIENT_API GLFW_NO_API,
    Call.glfwWindowHint GLFW_RESIZABLE GLFW_FALSE,
    Call.glfwCreateWindow WIDTH HEIGHT "Vulkan"])

/-- Lines 58-62. -/
def initVulkan (enableValidationLayers : Bool) (fuel : Nat) (rt : Runtime)
    (app : HelloTriangleApplication) :
    Option (Except Failure Unit × HelloTriangleApplication × List Call) :=
  match createInstance enableValidationLayers fuel rt app with
  | none => none
  | some (.error e, app, created) => some (.error e, app, created)
  | some (.ok (), app, created) =>
    let (r, app, picked) := pickPhysicalDevice rt app
    some (r, app, created ++ picked)

/-- Loop of lines 66-68; `k` counts the calls of `glfwWindowShouldClose`
made so far. -/
def mainLoop (rt : Runtime) (app : HelloTriangleApplication) : Nat → Nat → Option (List Call)
  | 0, _ => none
  | fuel + 1, k =>
    if !rt.windowShouldClose k then
      match mainLoop rt app fuel (k + 1) with
      | none => none
      | some calls =>
        some (Call.glfwWindowShouldClose app.window :: Call.glfwPollEvents :: calls)
    else some [Call.glfwWindowShouldClose app.window]

/-- Lines 71-81. Each call is recorded with the members it is given, assigned
or not. -/
def cleanup (app : HelloTriangleApplication) : List Call :=
  [Call.vkDestroySurfaceKHR app.instanceHandle app.surface,
   Call.vkDestroyInstance app.instanceHandle,
   Call.vkDestroyDevice app.device,
   Call.glfwDestroyWindow app.window,
   Call.glfwTerminate]

/-- Lines 42-47. An exception leaves `run` at the step that threw. -/
def run (enableValidationLayers : Bool) (fuel : Nat) (rt : Runtime)
    (app : HelloTriangleApplication) :
    Option (Except Failure Unit × HelloTriangleApplication × List Call) :=
  let (app, windowed) := initWindow rt app
  match initVulkan enableValidationLayers fuel rt app with
  | none => none
  | some (.error e, app, started) => some (.error e, app, windowed ++ started)
  | some (.ok (), app, started) =>
    match mainLoop rt app fuel 0 with
    | none => none
    | some looped => some (.ok (), app, windowed ++ started ++ looped ++ cleanup app)

/-- Lines 274-288: the object is constructed, `run` is called, and the exit
status is `EXIT_FAILURE` (1) when `run` threw and `EXIT_SUCCESS` (0) otherwise. -/
def main (enableValidationLayers : Bool) (fuel : Nat) (rt : Runtime) :
    Option (Nat × List Call) :=
  match run enableValidationLayers fuel rt HelloTriangleApplication.new with
  | none => none
  | some (.error _, _, calls) => some (1, calls)
  | some (.ok (), _, calls) => some (0, calls)

/-! ## Example runtimes -/

/-- A runtime that reports one physical device, handle 1, with the given
queue family flags and geometry shader feature. -/
def oneDeviceRuntime (flags : List Nat) (geometryShader : Bool) : Runtime :=
  { availableLayers := []
    requiredInstanceExtensions := ["VK_KHR_surface", "VK_KHR_win32_surface"]
    createInstanceResult := fun _ => (VK_SUCCESS, 7)
    physicalDevices := [1]
    deviceProperties := fun _ => { deviceType := 2, deviceName := "GPU" }
    deviceFeatures := fun _ => { geometryShader := geometryShader }
    queueFamilies := fun _ => flags.map fun f => { queueFlags := f }
    createdWindow := 5
    createSurfaceResult := (VK_SUCCESS, 9)
    windowShouldClose := fun _ => true }

/-- A runtime that lists the given layer names and one suitable device. -/
def layersRuntime (layers : List String) : Runtime :=
  { oneDeviceRuntime [VK_QUEUE_GRAPHICS_BIT] true with availableLayers := layers }

/-- Devices 11, 12, 13 in this order; 11 lacks the geometry shader feature,
12 and 13 have it, and each has a graphics queue family at index 1. -/
def threeDeviceRuntime : Runtime :=
  { availableLayers := []
    requiredInstanceExtensions := ["VK_KHR_surface", "VK_KHR_win32_surface"]
    createInstanceResult := fun _ => (VK_SUCCESS, 7)
    physicalDevices := [11, 12, 13]
    deviceProperties := fun d => { deviceType := d % 3, deviceName := "GPU" }
    deviceFeatures := fun d => { geometryShader := d != 11 }
    queueFamilies := fun _ =>
      [{ queueFlags := VK_QUEUE_TRANSFER_BIT },
       { queueFlags := VK_QUEUE_GRAPHICS_BIT ||| VK_QUEUE_COMPUTE_BIT }]
    createdWindow := 5
    createSurfaceResult := (VK_SUCCESS, 9)
    windowShouldClose := fun k => k == 2 }

/-- The object as `run` passes it to `pickPhysicalDevice` in the example
runtimes: `initWindow` has stored window 5 and `createInstance` instance 7;
`physicalDevice` is the null handle of the constructor. -/
def startedApplication : HelloTriangleApplication :=
  { HelloTriangleApplication.new with window := .val 5, instanceHandle := .val 7 }

/-! ## Properties of findQueueFamilies -/

theorem findQueueFamiliesLoop_eq_none (qs : List VkQueueFamilyProperties) (i : Nat) :
    (findQueueFamiliesLoop qs i {}).graphicsFamily = none ↔
      ∀ q ∈ qs, hasGraphicsBit q = false := by
  induction qs generalizing i with
  | nil => simp [findQueueFamiliesLoop]
  | cons q rest ih =>
    by_cases h : hasGraphicsBit q = true
    · simp [findQueueFamiliesLoop, h, QueueFamilyIndices.isComplete]
    · have h' : hasGraphicsBit q = false := by simpa using h
      simp [findQueueFamiliesLoop, h', QueueFamilyIndices.isComplete, ih]

theorem findQueueFamiliesLoop_eq_some (qs : List VkQueueFamilyProperties) (i v : Nat) :
    (findQueueFamiliesLoop qs i {}).graphicsFamily = some v ↔
      ∃ k q, qs[k]? = some q ∧ hasGraphicsBit q = true ∧
        (∀ j q', j < k → qs[j]? = some q' → hasGraphicsBit q' = false) ∧
        v = (i + k) % UINT32_SIZE := by
  induction qs generalizing i with
  | nil => simp [findQueueFamiliesLoop]
  | cons q rest ih =>
    by_cases h : hasGraphicsBit q = true
    · simp only [findQueueFamiliesLoop, h, QueueFamilyIndices.isComplete, if_true,
        Option.isSome_some, Option.some.injEq]
      constructor
      · intro hv
        exact ⟨0, q, by simp, h, by intro j q' hj; omega, by simp [hv]⟩
      · rintro ⟨k, q0, hk, hq0, hfirst, hv⟩
        cases k with
        | zero => simpa using hv.symm
        | succ k =>
          have := hfirst 0 q (by omega) (by simp)
          simp [h] at this
    · have h' : hasGraphicsBit q = false := by simpa using h
      simp only [findQueueFamiliesLoop, h', QueueFamilyIndices.isComplete,
        Option.isSome_none, Bool.false_eq_true, if_false, ih]
      constructor
      · rintro ⟨k, q0, hk, hq0, hfirst, hv⟩
        refine ⟨k + 1, q0, by simpa using hk, hq0, ?_, by rw [hv]; congr 1; omega⟩
        intro j q' hj hq'
        cases j with
        | zero =>
          simp at hq'
          rw [← hq']; exact h'
        | succ j => exact hfirst j q' (by omega) (by simpa using hq')
      · rintro ⟨k, q0, hk, hq0, hfirst, hv⟩
        cases k with
        | zero =>
          simp at hk
          rw [hk] at h'
          simp [h'] at hq0
        | succ k =>
          refine ⟨k, q0, by simpa using hk, hq0, ?_, by rw [hv]; congr 1; omega⟩
          intro j q' hj hq'
          exact hfirst (j + 1) q' (by omega) (by simpa using hq')

theorem findQueueFamiliesLoop_transfer_graphics_compute (qs : List VkQueueFamilyProperties)
    (hmap : qs.map (fun q => q.queueFlags) =
      [VK_QUEUE_TRANSFER_BIT, VK_QUEUE_GRAPHICS_BIT, VK_QUEUE_COMPUTE_BIT]) :
    (findQueueFamiliesLoop qs 0 {}).graphicsFamily = some 1 := by
  rcases qs with _ | ⟨q0, _ | ⟨q1, _ | ⟨q2, _ | ⟨q3, r⟩⟩⟩⟩ <;> simp at hmap
  obtain ⟨h0, h1, -⟩ := hmap
  simp [findQueueFamiliesLoop, hasGraphicsBit, h0, h1, VK_QUEUE_TRANSFER_BIT,
    VK_QUEUE_GRAPHICS_BIT, QueueFamilyIndices.isComplete, UINT32_SIZE]

theorem findQueueFamiliesLoop_transfer_compute (qs : List VkQueueFamilyProperties)
    (hmap : qs.map (fun q => q.queueFlags) = [VK_QUEUE_TRANSFER_BIT, VK_QUEUE_COMPUTE_BIT]) :
    (findQueueFamiliesLoop qs 0 {}).graphicsFamily = none := by
  rcases qs with _ | ⟨q0, _ | ⟨q1, _ | ⟨q2, r⟩⟩⟩ <;> simp at hmap
  obtain ⟨h0, h1⟩ := hmap
  simp [findQueueFamiliesLoop, hasGraphicsBit, h0, h1, VK_QUEUE_TRANSFER_BIT,
    VK_QUEUE_COMPUTE_BIT, VK_QUEUE_GRAPHICS_BIT, QueueFamilyIndices.isComplete]

/-- The test of line 209 reads bit 0 of the flags, the graphics bit. -/
theorem hasGraphicsBit_eq_testBit (q : VkQueueFamilyProperties) :
    hasGraphicsBit q = q.queueFlags.testBit 0 := by
  simp only [hasGraphicsBit, VK_QUEUE_GRAPHICS_BIT, Nat.testBit, Nat.shiftRight_zero,
    Nat.one_and_eq_mod_two, Nat.and_one_is_mod]

/-- C2: for every list of queue families that an `int` counter can index,
`findQueueFamilies` returns as `graphicsFamily` the smallest index whose flags
include the graphics bit; `graphicsFamily` is unset, and `isComplete()` false,
exactly when no family has the graphics bit. Flags [transfer, graphics,
compute] give index 1 and flags [transfer, compute] give unset. -/
theorem findQueueFamilies_first_graphics (rt : Runtime) (device : Nat)
    (hlen : (rt.queueFamilies device).length ≤ INT_MAX) :
    (∀ v, (findQueueFamilies rt device).1.graphicsFamily = some v ↔
        ∃ q, (rt.queueFamilies device)[v]? = some q ∧ hasGraphicsBit q = true ∧
          ∀ j q', j < v → (rt.queueFamilies device)[j]? = some q' →
            hasGraphicsBit q' = false) ∧
    ((findQueueFamilies rt device).1.graphicsFamily = none ↔
        ∀ q ∈ rt.queueFamilies device, hasGraphicsBit q = false) ∧
    ((findQueueFamilies rt device).1.isComplete = false ↔
        ∀ q ∈ rt.queueFamilies device, hasGraphicsBit q = false) ∧
    ((rt.queueFamilies device).map (fun q => q.queueFlags) =
        [VK_QUEUE_TRANSFER_BIT, VK_QUEUE_GRAPHICS_BIT, VK_QUEUE_COMPUTE_BIT] →
      (findQueueFamilies rt device).1.graphicsFamily = some 1) ∧
    ((rt.queueFamilies device).map (fun q => q.queueFlags) =
        [VK_QUEUE_TRANSFER_BIT, VK_QUEUE_COMPUTE_BIT] →
      (findQueueFamilies rt device).1.graphicsFamily = none ∧
      (findQueueFamilies rt device).1.isComplete = false) := by
  have hnone := findQueueFamiliesLoop_eq_none (rt.queueFamilies device) 0
  refine ⟨?_, hnone, ?_, ?_, ?_⟩
  · intro v
    simp only [findQueueFamilies, findQueueFamiliesLoop_eq_some, Nat.zero_add]
    constructor
    · rintro ⟨k, q, hk, hq, hfirst, hv⟩
      have hklen : k < (rt.queueFamilies device).length := by
        rcases List.getElem?_eq_some.mp hk with ⟨hlt, _⟩
        exact hlt
      have hkv : v = k := by
        rw [hv]
        apply Nat.mod_eq_of_lt
        simp only [INT_MAX, UINT32_SIZE] at *
        omega
      subst hkv
      exact ⟨q, hk, hq, hfirst⟩
    · rintro ⟨q, hk, hq, hfirst⟩
      have hvlen : v < (rt.queueFamilies device).length := by
        rcases List.getElem?_eq_some.mp hk with ⟨hlt, _⟩
        exact hlt
      refine ⟨v, q, hk, hq, hfirst, ?_⟩
      symm
      apply Nat.mod_eq_of_lt
      simp only [INT_MAX, UINT32_SIZE] at *
      omega
  · rw [← hnone]
    simp [findQueueFamilies, QueueFamilyIndices.isComplete]
  · intro hmap
    exact findQueueFamiliesLoop_transfer_graphics_compute _ hmap
  · intro hmap
    have h := findQueueFamiliesLoop_transfer_compute _ hmap
    exact ⟨h, by simp [findQueueFamilies, QueueFamilyIndices.isComplete, h]⟩

/-- Witness of C2 at a device with flags [transfer, graphics, compute]. -/
theorem findQueueFamilies_first_graphics_witness :
    ((oneDeviceRuntime [VK_QUEUE_TRANSFER_BIT, VK_QUEUE_GRAPHICS_BIT, VK_QUEUE_COMPUTE_BIT]
        true).queueFamilies 1).length ≤ INT_MAX ∧
    (findQueueFamilies (oneDeviceRuntime
        [VK_QUEUE_TRANSFER_BIT, VK_QUEUE_GRAPHICS_BIT, VK_QUEUE_COMPUTE_BIT] true)
      1).1.graphicsFamily = some 1 :=
  ⟨by decide,
   (findQueueFamilies_first_graphics
      (oneDeviceRuntime [VK_QUEUE_TRANSFER_BIT, VK_QUEUE_GRAPHICS_BIT, VK_QUEUE_COMPUTE_BIT] true)
      1 (by decide)).2.2.2.1 (by decide)⟩

/-! ## Properties of isDeviceSuitable -/

/-- C3: `isDeviceSuitable` is true exactly when the device's `geometryShader`
feature is true and `findQueueFamilies(device).isComplete()` is true; the three
other combinations give false; the result is the same for any two devices that
agree on these two conditions, and does not change with the device properties
(device type, name). -/
theorem isDeviceSuitable_iff (rt : Runtime) (device : Nat) :
    ((isDeviceSuitable rt device).1 = true ↔
      (rt.deviceFeatures device).geometryShader = true ∧
        (findQueueFamilies rt device).1.isComplete = true) ∧
    ((rt.deviceFeatures device).geometryShader = true →
      (findQueueFamilies rt device).1.isComplete = false →
      (isDeviceSuitable rt device).1 = false) ∧
    ((rt.deviceFeatures device).geometryShader = false →
      (findQueueFamilies rt device).1.isComplete = true →
      (isDeviceSuitable rt device).1 = false) ∧
    ((rt.deviceFeatures device).geometryShader = false →
      (findQueueFamilies rt device).1.isComplete = false →
      (isDeviceSuitable rt device).1 = false) ∧
    (∀ props, (isDeviceSuitable { rt with deviceProperties := props } device).1 =
      (isDeviceSuitable rt device).1) ∧
    (∀ (rt' : Runtime) (device' : Nat),
      (rt'.deviceFeatures device').geometryShader = (rt.deviceFeatures device).geometryShader →
      (findQueueFamilies rt' device').1.isComplete = (findQueueFamilies rt device).1.isComplete →
      (isDeviceSuitable rt' device').1 = (isDeviceSuitable rt device).1) := by
  refine ⟨?_, ?_, ?_, ?_, ?_, ?_⟩
  · simp [isDeviceSuitable]
  · intro hg hc
    simp [isDeviceSuitable, hc]
  · intro hg hc
    simp [isDeviceSuitable, hg]
  · intro hg hc
    simp [isDeviceSuitable, hg]
  · intro props
    rfl
  · intro rt' device' hg hc
    simp only [isDeviceSuitable, hg, hc]

/-- Witness of C3: the four combinations of geometry shader support and of a
graphics queue family on one device. -/
theorem isDeviceSuitable_iff_witness :
    (isDeviceSuitable (oneDeviceRuntime [VK_QUEUE_GRAPHICS_BIT] true) 1).1 = true ∧
    (isDeviceSuitable (oneDeviceRuntime [VK_QUEUE_TRANSFER_BIT] true) 1).1 = false ∧
    (isDeviceSuitable (oneDeviceRuntime [VK_QUEUE_GRAPHICS_BIT] false) 1).1 = false ∧
    (isDeviceSuitable (oneDeviceRuntime [VK_QUEUE_TRANSFER_BIT] false) 1).1 = false :=
  ⟨(isDeviceSuitable_iff (oneDeviceRuntime [VK_QUEUE_GRAPHICS_BIT] true) 1).1.mpr
      ⟨by decide, by decide⟩,
   (isDeviceSuitable_iff (oneDeviceRuntime [VK_QUEUE_TRANSFER_BIT] true) 1).2.1
      (by decide) (by decide),
   (isDeviceSuitable_iff (oneDeviceRuntime [VK_QUEUE_GRAPHICS_BIT] false) 1).2.2.1
      (by decide) (by decide),
   (isDeviceSuitable_iff (oneDeviceRuntime [VK_QUEUE_TRANSFER_BIT] false) 1).2.2.2.1
      (by decide) (by decide)⟩

/-! ## Properties of pickPhysicalDevice -/

theorem pickPhysicalDeviceLoop_none (rt : Runtime) (ds : List Nat) (pd : Slot)
    (hno : ∀ d ∈ ds, (isDeviceSuitable rt d).1 = false) :
    (pickPhysicalDeviceLoop rt ds pd).1 = pd := by
  induction ds with
  | nil => rfl
  | cons d rest ih =>
    have hd : (isDeviceSuitable rt d).1 = false := hno d (by simp)
    have hrest := ih (fun x hx => hno x (by simp [hx]))
    simp only [pickPhysicalDeviceLoop, hd]
    simpa using hrest

theorem pickPhysicalDeviceLoop_first (rt : Runtime) (ds : List Nat) (pd : Slot) (k d : Nat)
    (hk : ds[k]? = some d) (hd : (isDeviceSuitable rt d).1 = true)
    (hfirst : ∀ j d', j < k → ds[j]? = some d' → (isDeviceSuitable rt d').1 = false) :
    (pickPhysicalDeviceLoop rt ds pd).1 = .val d := by
  induction ds generalizing k with
  | nil => simp at hk
  | cons x rest ih =>
    cases k with
    | zero =>
      simp at hk
      subst hk
      simp [pickPhysicalDeviceLoop, hd]
    | succ k =>
      have hx : (isDeviceSuitable rt x).1 = false := hfirst 0 x (by omega) (by simp)
      have hrest := ih k (by simpa using hk)
        (fun j d' hj hd' => hfirst (j + 1) d' (by omega) (by simpa using hd'))
      simp only [pickPhysicalDeviceLoop, hx]
      simpa using hrest

theorem exists_first_suitable (rt : Runtime) (ds : List Nat)
    (hex : ∃ d ∈ ds, (isDeviceSuitable rt d).1 = true) :
    ∃ k d : Nat, ds[k]? = some d ∧ (isDeviceSuitable rt d).1 = true ∧
      ∀ j d' : Nat, j < k → ds[j]? = some d' → (isDeviceSuitable rt d').1 = false := by
  induction ds with
  | nil => simp at hex
  | cons x rest ih =>
    by_cases hx : (isDeviceSuitable rt x).1 = true
    · exact ⟨0, x, by simp, hx, by intro j d' hj; omega⟩
    · have hx' : (isDeviceSuitable rt x).1 = false := by simpa using hx
      obtain ⟨d, hmem, hd⟩ := hex
      have hin : d ∈ rest := by
        rcases List.mem_cons.mp hmem with h | h
        · subst h; exact absurd hd hx
        · exact h
      obtain ⟨k, d0, hk, hd0, hfirst⟩ := ih ⟨d, hin, hd⟩
      refine ⟨k + 1, d0, by simpa using hk, hd0, ?_⟩
      intro j d' hj hd'
      cases j with
      | zero =>
        simp at hd'
        rw [← hd']; exact hx'
      | succ j => exact hfirst j d' (by omega) (by simpa using hd')

/-- The object and result of `pickPhysicalDevice` in terms of the slot the
loop leaves, for a non-empty device list. -/
theorem pickPhysicalDevice_of_loop (rt : Runtime) (app : HelloTriangleApplication) (h : Nat)
    (hne : rt.physicalDevices ≠ [])
    (hloop : (pickPhysicalDeviceLoop rt rt.physicalDevices app.physicalDevice).1 = .val h) :
    (pickPhysicalDevice rt app).2.1 = { app with physicalDevice := .val h } ∧
    (pickPhysicalDevice rt app).1 =
      if h = VK_NULL_HANDLE then .error (.runtime_error "failed to find a suitable GPU!")
      else .ok () := by
  have hlen : rt.physicalDevices.length ≠ 0 := by
    intro h0; exact hne (List.length_eq_zero.mp h0)
  unfold pickPhysicalDevice
  simp only [hlen, if_false]
  revert hloop
  generalize pickPhysicalDeviceLoop rt rt.physicalDevices app.physicalDevice = r
  obtain ⟨pd, calls⟩ := r
  intro hloop
  simp only at hloop
  subst hloop
  by_cases hh : h = VK_NULL_HANDLE <;> simp [hh]

theorem pickPhysicalDevice_empty (rt : Runtime) (app : HelloTriangleApplication)
    (hempty : rt.physicalDevices = []) :
    (pickPhysicalDevice rt app).1 =
      .error (.runtime_error "Failed to find GPUs with Vulkan support!") ∧
    (pickPhysicalDevice rt app).2.1 = app := by
  simp [pickPhysicalDevice, hempty]

/-- Writing the null handle into a `physicalDevice` that holds it changes
nothing. -/
theorem physicalDevice_null_unchanged (app : HelloTriangleApplication)
    (hfresh : app.physicalDevice = .val VK_NULL_HANDLE) :
    { app with physicalDevice := .val VK_NULL_HANDLE } = app := by
  cases app
  simp only at hfresh
  subst hfresh
  rfl

theorem pickPhysicalDevice_none_suitable (rt : Runtime) (app : HelloTriangleApplication)
    (hfresh : app.physicalDevice = .val VK_NULL_HANDLE) (hne : rt.physicalDevices ≠ [])
    (hno : ∀ d ∈ rt.physicalDevices, (isDeviceSuitable rt d).1 = false) :
    (pickPhysicalDevice rt app).1 = .error (.runtime_error "failed to find a suitable GPU!") ∧
    (pickPhysicalDevice rt app).2.1 = app := by
  have hloop : (pickPhysicalDeviceLoop rt rt.physicalDevices app.physicalDevice).1 =
      .val VK_NULL_HANDLE :=
    (pickPhysicalDeviceLoop_none rt rt.physicalDevices app.physicalDevice hno).trans hfresh
  have h := pickPhysicalDevice_of_loop rt app VK_NULL_HANDLE hne hloop
  refine ⟨by simpa using h.2, ?_⟩
  rw [h.1]
  exact physicalDevice_null_unchanged app hfresh

theorem pickPhysicalDevice_some_suitable (rt : Runtime) (app : HelloTriangleApplication)
    (k d : Nat)
    (hk : rt.physicalDevices[k]? = some d) (hd : (isDeviceSuitable rt d).1 = true)
    (hfirst : ∀ j d' : Nat, j < k → rt.physicalDevices[j]? = some d' →
      (isDeviceSuitable rt d').1 = false)
    (hnn : d ≠ VK_NULL_HANDLE) :
    (pickPhysicalDevice rt app).1 = .ok () ∧
    (pickPhysicalDevice rt app).2.1 = { app with physicalDevice := .val d } := by
  have hne : rt.physicalDevices ≠ [] := by
    intro h0
    simp [h0] at hk
  have hloop := pickPhysicalDeviceLoop_first rt rt.physicalDevices app.physicalDevice k d hk hd
    hfirst
  have h := pickPhysicalDevice_of_loop rt app d hne hloop
  exact ⟨by simpa [hnn] using h.2, h.1⟩

/-- C4: on every application object whose `physicalDevice` is still the null
handle of the constructor, whatever its other members hold, when every
enumerated handle is non-null and some enumerated device passes
`isDeviceSuitable`, `pickPhysicalDevice` returns normally, changes no member
but `physicalDevice`, and sets `physicalDevice` to the first device in
enumeration order that passes; for [D0 unsuitable, D1 suitable, D2 suitable]
this is D1, not D2. -/
theorem pickPhysicalDevice_first_fit (rt : Runtime) (app : HelloTriangleApplication)
    (hfresh : app.physicalDevice = .val VK_NULL_HANDLE)
    (hnn : ∀ d ∈ rt.physicalDevices, d ≠ VK_NULL_HANDLE)
    (hex : ∃ d ∈ rt.physicalDevices, (isDeviceSuitable rt d).1 = true) :
    (∃ k d : Nat, rt.physicalDevices[k]? = some d ∧ (isDeviceSuitable rt d).1 = true ∧
      (∀ j d' : Nat, j < k → rt.physicalDevices[j]? = some d' →
        (isDeviceSuitable rt d').1 = false) ∧
      (pickPhysicalDevice rt app).1 = .ok () ∧
      (pickPhysicalDevice rt app).2.1 = { app with physicalDevice := .val d } ∧
      (pickPhysicalDevice rt app).2.1.physicalDevice ≠ app.physicalDevice) ∧
    (∀ D0 D1 D2 : Nat, rt.physicalDevices = [D0, D1, D2] →
      (isDeviceSuitable rt D0).1 = false → (isDeviceSuitable rt D1).1 = true →
      (isDeviceSuitable rt D2).1 = true →
      (pickPhysicalDevice rt app).1 = .ok () ∧
      (pickPhysicalDevice rt app).2.1 = { app with physicalDevice := .val D1 } ∧
      (pickPhysicalDevice rt app).2.1.physicalDevice = .val D1 ∧
      (D1 ≠ D2 → (pickPhysicalDevice rt app).2.1.physicalDevice ≠ .val D2)) := by
  constructor
  · obtain ⟨k, d, hk, hd, hfirst⟩ := exists_first_suitable rt rt.physicalDevices hex
    have hmem : d ∈ rt.physicalDevices := by
      rcases List.getElem?_eq_some.mp hk with ⟨hlt, heq⟩
      rw [← heq]
      exact List.getElem_mem hlt
    have h := pickPhysicalDevice_some_suitable rt app k d hk hd hfirst (hnn d hmem)
    refine ⟨k, d, hk, hd, hfirst, h.1, h.2, ?_⟩
    rw [h.2, hfresh]
    intro heq
    exact hnn d hmem (Slot.val.inj heq)
  · intro D0 D1 D2 hds h0 h1 _
    have hk : rt.physicalDevices[1]? = some D1 := by simp [hds]
    have hfirst : ∀ j d' : Nat, j < 1 → rt.physicalDevices[j]? = some d' →
        (isDeviceSuitable rt d').1 = false := by
      intro j d' hj hd'
      have hj0 : j = 0 := by omega
      subst hj0
      simp [hds] at hd'
      rw [← hd']; exact h0
    have h := pickPhysicalDevice_some_suitable rt app 1 D1 hk h1 hfirst
      (hnn D1 (by simp [hds]))
    refine ⟨h.1, h.2, by rw [h.2], ?_⟩
    intro hne
    rw [h.2]
    intro heq
    exact hne (Slot.val.inj heq)

/-- Witness of C4 on the object that `run` passes (window 5, instance 7):
devices [11, 12, 13] with 11 unsuitable select 12. -/
theorem pickPhysicalDevice_first_fit_witness :
    startedApplication.physicalDevice = .val VK_NULL_HANDLE ∧
    (∀ d ∈ threeDeviceRuntime.physicalDevices, d ≠ VK_NULL_HANDLE) ∧
    (∃ d ∈ threeDeviceRuntime.physicalDevices, (isDeviceSuitable threeDeviceRuntime d).1 = true) ∧
    (pickPhysicalDevice threeDeviceRuntime startedApplication).1 = .ok () ∧
    (pickPhysicalDevice threeDeviceRuntime startedApplication).2.1 =
      { startedApplication with physicalDevice := .val 12 } :=
  ⟨rfl, by decide, by decide,
   ((pickPhysicalDevice_first_fit threeDeviceRuntime startedApplication rfl (by decide)
      (by decide)).2 11 12 13 rfl (by decide) (by decide) (by decide)).1,
   ((pickPhysicalDevice_first_fit threeDeviceRuntime startedApplication rfl (by decide)
      (by decide)).2 11 12 13 rfl (by decide) (by decide) (by decide)).2.1⟩

/-- C5: on every application object whose `physicalDevice` is still the null
handle of the constructor, whatever its other members hold, with every
enumerated handle non-null, `pickPhysicalDevice` throws exactly when the device
list is empty or no device in it passes `isDeviceSuitable`; when it throws the
object is unchanged, so `physicalDevice` is still the null handle; and a
non-null `physicalDevice` afterwards means some enumerated device passed. -/
theorem pickPhysicalDevice_fails_iff (rt : Runtime) (app : HelloTriangleApplication)
    (hfresh : app.physicalDevice = .val VK_NULL_HANDLE)
    (hnn : ∀ d ∈ rt.physicalDevices, d ≠ VK_NULL_HANDLE) :
    ((∃ e, (pickPhysicalDevice rt app).1 = .error e) ↔
      (rt.physicalDevices = [] ∨
        ∀ d ∈ rt.physicalDevices, (isDeviceSuitable rt d).1 = false)) ∧
    (rt.physicalDevices = [] →
      (pickPhysicalDevice rt app).1 =
        .error (.runtime_error "Failed to find GPUs with Vulkan support!")) ∧
    (rt.physicalDevices ≠ [] →
      (∀ d ∈ rt.physicalDevices, (isDeviceSuitable rt d).1 = false) →
      (pickPhysicalDevice rt app).1 =
        .error (.runtime_error "failed to find a suitable GPU!")) ∧
    (∀ e, (pickPhysicalDevice rt app).1 = .error e →
      (pickPhysicalDevice rt app).2.1 = app ∧
      (pickPhysicalDevice rt app).2.1.physicalDevice = .val VK_NULL_HANDLE) ∧
    ((pickPhysicalDevice rt app).2.1.physicalDevice ≠ .val VK_NULL_HANDLE →
      ∃ d ∈ rt.physicalDevices, (isDeviceSuitable rt d).1 = true) := by
  by_cases hempty : rt.physicalDevices = []
  · have h := pickPhysicalDevice_empty rt app hempty
    refine ⟨⟨fun _ => Or.inl hempty, fun _ => ⟨_, h.1⟩⟩, fun _ => h.1,
      fun hne => absurd hempty hne, fun e _ => ⟨h.2, by rw [h.2]; exact hfresh⟩, ?_⟩
    intro hpd
    rw [h.2] at hpd
    exact absurd hfresh hpd
  · by_cases hex : ∃ d ∈ rt.physicalDevices, (isDeviceSuitable rt d).1 = true
    · obtain ⟨k, d, hk, hd, hfirst⟩ := exists_first_suitable rt rt.physicalDevices hex
      have hmem : d ∈ rt.physicalDevices := by
        rcases List.getElem?_eq_some.mp hk with ⟨hlt, heq⟩
        rw [← heq]
        exact List.getElem_mem hlt
      have h := pickPhysicalDevice_some_suitable rt app k d hk hd hfirst (hnn d hmem)
      have hnot : ¬ ∀ x ∈ rt.physicalDevices, (isDeviceSuitable rt x).1 = false := by
        intro hall
        rw [hall d hmem] at hd
        exact Bool.false_ne_true hd
      refine ⟨⟨?_, ?_⟩, fun he => absurd he hempty, fun _ hall => absurd hall hnot, ?_,
        fun _ => hex⟩
      · rintro ⟨e, he⟩
        rw [h.1] at he
        cases he
      · rintro (he | hall)
        · exact absurd he hempty
        · exact absurd hall hnot
      · intro e he
        rw [h.1] at he
        cases he
    · have hno : ∀ d ∈ rt.physicalDevices, (isDeviceSuitable rt d).1 = false := by
        intro d hmem
        by_contra hd
        exact hex ⟨d, hmem, by simpa using hd⟩
      have h := pickPhysicalDevice_none_suitable rt app hfresh hempty hno
      refine ⟨⟨fun _ => Or.inr hno, fun _ => ⟨_, h.1⟩⟩, fun he => absurd he hempty,
        fun _ _ => h.1, fun e _ => ⟨h.2, by rw [h.2]; exact hfresh⟩, ?_⟩
      intro hpd
      rw [h.2] at hpd
      exact absurd hfresh hpd

/-- Witness of C5 on the object that `run` passes (window 5, instance 7): one
device without a graphics queue family. -/
theorem pickPhysicalDevice_fails_iff_witness :
    startedApplication.physicalDevice = .val VK_NULL_HANDLE ∧
    (∀ d ∈ (oneDeviceRuntime [VK_QUEUE_TRANSFER_BIT] true).physicalDevices,
      d ≠ VK_NULL_HANDLE) ∧
    (pickPhysicalDevice (oneDeviceRuntime [VK_QUEUE_TRANSFER_BIT] true)
        startedApplication).1 =
      .error (.runtime_error "failed to find a suitable GPU!") ∧
    (pickPhysicalDevice (oneDeviceRuntime [VK_QUEUE_TRANSFER_BIT] true)
        startedApplication).2.1 = startedApplication :=
  ⟨rfl, by decide,
   (pickPhysicalDevice_fails_iff (oneDeviceRuntime [VK_QUEUE_TRANSFER_BIT] true)
      startedApplication rfl (by decide)).2.2.1 (by decide) (by decide),
   ((pickPhysicalDevice_fails_iff (oneDeviceRuntime [VK_QUEUE_TRANSFER_BIT] true)
      startedApplication rfl (by decide)).2.2.2.1 _
      ((pickPhysicalDevice_fails_iff (oneDeviceRuntime [VK_QUEUE_TRANSFER_BIT] true)
        startedApplication rfl (by decide)).2.2.1 (by decide) (by decide))).1⟩

/-! ## Behaviour of checkValidationLayerSupport -/

/-- When the first available name differs from the first requested name the
inner loop never ends: `j` stays 0 and the test `j < availableLayers.size()`
stays true. -/
theorem layerInnerLoop_diverges (requested available : List String) (a l : String)
    (ha : available[0]? = some a) (hl : requested[0]? = some l) (hne : a ≠ l)
    (fuel i : Nat) : layerInnerLoop requested available fuel i 0 = none := by
  have hpos : 0 < available.length := by
    rcases List.getElem?_eq_some.mp ha with ⟨hlt, _⟩
    exact hlt
  induction fuel generalizing i with
  | zero => rfl
  | succ fuel ih =>
    simp only [layerInnerLoop, hpos, if_true, ha, hl, hne, if_false]
    exact ih _

theorem layerOuterLoop_diverges (requested available : List String) (a l : String)
    (ha : available[0]? = some a) (hl : requested[0]? = some l) (hne : a ≠ l)
    (fuel : Nat) : layerOuterLoop requested available fuel 0 = none := by
  have hpos : 0 < requested.length := by
    rcases List.getElem?_eq_some.mp hl with ⟨hlt, _⟩
    exact hlt
  cases fuel with
  | zero => rfl
  | succ fuel =>
    simp only [layerOuterLoop, hpos, if_true,
      layerInnerLoop_diverges requested available a l ha hl hne fuel 0]

/-- With no available layer the check returns false once the fuel covers
one pass of each loop. -/
theorem layerOuterLoop_nil (requested : List String) (hreq : requested ≠ []) (fuel : Nat) :
    layerOuterLoop requested [] (fuel + 2) 0 = some (.ok false) := by
  have hpos : 0 < requested.length := List.length_pos.mpr hreq
  simp [layerOuterLoop, layerInnerLoop, hpos]

/-- The three behaviours of `checkValidationLayerSupport` on the requested
list of lines 15-17: false on an empty available list, true when the first
available name is the requested one, no return otherwise. -/
theorem checkValidationLayerSupport_cases (rt : Runtime) :
    (rt.availableLayers = [] → ∀ fuel,
      checkValidationLayerSupport (fuel + 2) rt =
        some (.ok false,
          [Call.vkEnumerateInstanceLayerProperties, Call.vkEnumerateInstanceLayerProperties])) ∧
    (rt.availableLayers[0]? = some "VK_LAYER_KHRONOS_validation" → ∀ fuel,
      checkValidationLayerSupport (fuel + 3) rt =
        some (.ok true,
          [Call.vkEnumerateInstanceLayerProperties, Call.vkEnumerateInstanceLayerProperties])) ∧
    (∀ a, rt.availableLayers[0]? = some a → a ≠ "VK_LAYER_KHRONOS_validation" → ∀ fuel,
      checkValidationLayerSupport fuel rt = none) := by
  refine ⟨?_, ?_, ?_⟩
  · intro hnil fuel
    simp [checkValidationLayerSupport, hnil, layerOuterLoop_nil validationLayers
      (by simp [validationLayers]) fuel]
  · intro hhead fuel
    have hpos : 0 < rt.availableLayers.length := by
      rcases List.getElem?_eq_some.mp hhead with ⟨hlt, _⟩
      exact hlt
    simp [checkValidationLayerSupport, layerOuterLoop, layerInnerLoop, hpos, hhead,
      validationLayers, UINT32_SIZE]
  · intro a ha hne fuel
    simp [checkValidationLayerSupport, layerOuterLoop_diverges validationLayers
      rt.availableLayers a "VK_LAYER_KHRONOS_validation" ha (by simp [validationLayers]) hne fuel]

/-- C1 at an input where the property fails: the requested layer is available
but listed second, and for every fuel the check has not returned; with the
same two names in the other order it returns true. -/
theorem checkValidationLayerSupport_depends_on_order :
    (∀ l ∈ validationLayers,
      l ∈ (layersRuntime
        ["VK_LAYER_LUNARG_api_dump", "VK_LAYER_KHRONOS_validation"]).availableLayers) ∧
    (∀ fuel, checkValidationLayerSupport fuel
      (layersRuntime ["VK_LAYER_LUNARG_api_dump", "VK_LAYER_KHRONOS_validation"]) = none) ∧
    (∀ fuel, checkValidationLayerSupport (fuel + 3)
      (layersRuntime ["VK_LAYER_KHRONOS_validation", "VK_LAYER_LUNARG_api_dump"]) =
        some (.ok true,
          [Call.vkEnumerateInstanceLayerProperties, Call.vkEnumerateInstanceLayerProperties])) :=
  ⟨by decide,
   (checkValidationLayerSupport_cases _).2.2 "VK_LAYER_LUNARG_api_dump" rfl (by decide),
   (checkValidationLayerSupport_cases _).2.1 rfl⟩

/-- C8 at an input where the property fails: the one available layer is not
the requested one, and for every fuel the check has not returned, so it does
not return false. -/
theorem checkValidationLayerSupport_no_return :
    (∀ l ∈ validationLayers,
      l ∉ (layersRuntime ["VK_LAYER_LUNARG_api_dump"]).availableLayers) ∧
    (∀ fuel, checkValidationLayerSupport fuel
      (layersRuntime ["VK_LAYER_LUNARG_api_dump"]) = none) :=
  ⟨by decide,
   (checkValidationLayerSupport_cases _).2.2 "VK_LAYER_LUNARG_api_dump" rfl (by decide)⟩

/-! ## Properties of createInstance -/

/-- C6: when validation layers are enabled and `checkValidationLayerSupport`
returns false, `createInstance` throws "Validation layers requested, but not
available!", its calls are those of the check, none of them `vkCreateInstance`,
and the object is unchanged. When validation layers are disabled
`createInstance` always returns or throws, what it does is the same for every
list of available layers, and it throws only when `vkCreateInstance` does not
answer `VK_SUCCESS`. -/
theorem createInstance_layer_gate (fuel : Nat) (rt : Runtime) (app : HelloTriangleApplication)
    (checked : List Call)
    (hcheck : checkValidationLayerSupport fuel rt = some (.ok false, checked)) :
    (createInstance true fuel rt app =
      some (.error (.runtime_error "Validation layers requested, but not available!"),
        app, checked)) ∧
    (∀ createInfo, Call.vkCreateInstance createInfo ∉ checked) ∧
    (∀ (fuel' : Nat) (rt' : Runtime) (app' : HelloTriangleApplication),
      (∃ r, createInstance false fuel' rt' app' = some r ∧
        ((∃ e, r.1 = .error e) ↔
          (rt'.createInstanceResult (instanceCreateInfo false rt')).1 ≠ VK_SUCCESS) ∧
        (∀ e, r.1 = .error e → e = .runtime_error "Failed to create instance!")) ∧
      (∀ layers, createInstance false fuel' { rt' with availableLayers := layers } app' =
        createInstance false fuel' rt' app')) := by
  refine ⟨?_, ?_, ?_⟩
  · simp [createInstance, hcheck]
  · intro createInfo
    simp only [checkValidationLayerSupport] at hcheck
    split at hcheck
    · cases hcheck
    · simp only [Option.some.injEq, Prod.mk.injEq] at hcheck
      rw [← hcheck.2]
      simp
  · intro fuel' rt' app'
    refine ⟨⟨createInstanceBody false rt' app', by simp [createInstance], ?_, ?_⟩, ?_⟩
    · by_cases hres : (rt'.createInstanceResult (instanceCreateInfo false rt')).1 = VK_SUCCESS
      · simp [createInstanceBody, hres]
      · simp [createInstanceBody, hres]
    · intro e
      by_cases hres : (rt'.createInstanceResult (instanceCreateInfo false rt')).1 = VK_SUCCESS
      · simp [createInstanceBody, hres]
      · simp only [createInstanceBody, hres, ne_eq, not_false_eq_true, if_true]
        intro he
        cases he
        rfl
    · intro layers
      rfl

/-- Witness of C6: no layer is available. -/
theorem createInstance_layer_gate_witness :
    checkValidationLayerSupport 2 (layersRuntime []) =
      some (.ok false,
        [Call.vkEnumerateInstanceLayerProperties, Call.vkEnumerateInstanceLayerProperties]) ∧
    createInstance true 2 (layersRuntime []) HelloTriangleApplication.new =
      some (.error (.runtime_error "Validation layers requested, but not available!"),
        HelloTriangleApplication.new,
        [Call.vkEnumerateInstanceLayerProperties, Call.vkEnumerateInstanceLayerProperties]) :=
  ⟨rfl,
   (createInstance_layer_gate 2 (layersRuntime []) HelloTriangleApplication.new
      [Call.vkEnumerateInstanceLayerProperties, Call.vkEnumerateInstanceLayerProperties]
      rfl).1⟩

/-! ## Properties of createLogicalDevice -/

/-- C9: for a selected physical device whose `findQueueFamilies` result is
complete, the request assembled by `createLogicalDevice` has exactly one queue
creation entry, with `queueCount` 1, `queueFamilyIndex` the resolved
`graphicsFamily` and priority 1.0 (the top of the range 0-1), names no device
extension, and carries the layer list of `createInstance`: `validationLayers`
when validation layers are enabled, no layer otherwise. When the result is
incomplete `createLogicalDevice` throws and assembles no request. -/
theorem createLogicalDevice_request (enableValidationLayers : Bool) (rt : Runtime)
    (app : HelloTriangleApplication) (physicalDevice : Nat)
    (hsel : app.physicalDevice = .val physicalDevice) :
    ((findQueueFamilies rt physicalDevice).1.isComplete = true →
      ∃ graphicsFamily createInfo,
        (findQueueFamilies rt physicalDevice).1.graphicsFamily = some graphicsFamily ∧
        (createLogicalDevice enableValidationLayers rt app).1 = .ok createInfo ∧
        createInfo.pQueueCreateInfos =
          [{ queueFamilyIndex := graphicsFamily, queueCount := 1, pQueuePriorities := [1] }] ∧
        createInfo.ppEnabledExtensionNames = [] ∧
        createInfo.ppEnabledLayerNames =
          (instanceCreateInfo enableValidationLayers rt).ppEnabledLayerNames ∧
        createInfo.ppEnabledLayerNames =
          (if enableValidationLayers then validationLayers else [])) ∧
    ((findQueueFamilies rt physicalDevice).1.isComplete = false →
      (createLogicalDevice enableValidationLayers rt app).1 = .error .bad_optional_access) := by
  constructor
  · intro hc
    cases hg : (findQueueFamilies rt physicalDevice).1.graphicsFamily with
    | none => simp [QueueFamilyIndices.isComplete, hg] at hc
    | some g =>
      refine ⟨g,
        { pQueueCreateInfos :=
            [{ queueFamilyIndex := g, queueCount := 1, pQueuePriorities := [1] }]
          pEnabledFeatures := { geometryShader := false }
          ppEnabledExtensionNames := []
          ppEnabledLayerNames := if enableValidationLayers then validationLayers else [] },
        rfl, ?_, rfl, rfl, rfl, rfl⟩
      simp only [createLogicalDevice, hsel, findQueueFamilies] at hg ⊢
      simp only [hg, queuePriority]
  · intro hc
    have hg : (findQueueFamilies rt physicalDevice).1.graphicsFamily = none := by
      simpa [QueueFamilyIndices.isComplete] using hc
    simp only [createLogicalDevice, hsel, findQueueFamilies] at hg ⊢
    simp only [hg]

/-- Witness of C9: device 1 with flags [transfer, graphics, compute] selected,
validation layers enabled. -/
theorem createLogicalDevice_request_witness :
    ({ HelloTriangleApplication.new with physicalDevice := .val 1 } :
      HelloTriangleApplication).physicalDevice = .val 1 ∧
    (findQueueFamilies (oneDeviceRuntime
      [VK_QUEUE_TRANSFER_BIT, VK_QUEUE_GRAPHICS_BIT, VK_QUEUE_COMPUTE_BIT] true)
      1).1.isComplete = true ∧
    (∃ graphicsFamily createInfo,
      (findQueueFamilies (oneDeviceRuntime
        [VK_QUEUE_TRANSFER_BIT, VK_QUEUE_GRAPHICS_BIT, VK_QUEUE_COMPUTE_BIT] true)
        1).1.graphicsFamily = some graphicsFamily ∧
      (createLogicalDevice true (oneDeviceRuntime
        [VK_QUEUE_TRANSFER_BIT, VK_QUEUE_GRAPHICS_BIT, VK_QUEUE_COMPUTE_BIT] true)
        { HelloTriangleApplication.new with physicalDevice := .val 1 }).1 = .ok createInfo ∧
      createInfo.pQueueCreateInfos =
        [{ queueFamilyIndex := graphicsFamily, queueCount := 1, pQueuePriorities := [1] }] ∧
      createInfo.ppEnabledExtensionNames = [] ∧
      createInfo.ppEnabledLayerNames =
        (instanceCreateInfo true (oneDeviceRuntime
          [VK_QUEUE_TRANSFER_BIT, VK_QUEUE_GRAPHICS_BIT, VK_QUEUE_COMPUTE_BIT]
          true)).ppEnabledLayerNames ∧
      createInfo.ppEnabledLayerNames = (if true = true then validationLayers else [])) :=
  ⟨rfl, by decide,
   (createLogicalDevice_request true
      (oneDeviceRuntime [VK_QUEUE_TRANSFER_BIT, VK_QUEUE_GRAPHICS_BIT, VK_QUEUE_COMPUTE_BIT] true)
      { HelloTriangleApplication.new with physicalDevice := .val 1 } 1 rfl).1 (by decide)⟩

/-! ## The calls of run -/

theorem createInstanceBody_members (enableValidationLayers : Bool) (rt : Runtime)
    (app : HelloTriangleApplication) :
    (createInstanceBody enableValidationLayers rt app).2.1.surface = app.surface ∧
    (createInstanceBody enableValidationLayers rt app).2.1.device = app.device ∧
    (createInstanceBody enableValidationLayers rt app).2.1.window = app.window ∧
    ((createInstanceBody enableValidationLayers rt app).1 = .ok () →
      ∃ h, (createInstanceBody enableValidationLayers rt app).2.1.instanceHandle = .val h) := by
  by_cases hres :
      (rt.createInstanceResult (instanceCreateInfo enableValidationLayers rt)).1 = VK_SUCCESS
  · simp [createInstanceBody, hres]
  · simp [createInstanceBody, hres]

theorem createInstance_members (enableValidationLayers : Bool) (fuel : Nat) (rt : Runtime)
    (app app' : HelloTriangleApplication) (r : Except Failure Unit) (calls : List Call)
    (h : createInstance enableValidationLayers fuel rt app = some (r, app', calls)) :
    app'.surface = app.surface ∧ app'.device = app.device ∧ app'.window = app.window ∧
    (r = .ok () → ∃ h, app'.instanceHandle = .val h) := by
  have hb := createInstanceBody_members enableValidationLayers rt app
  unfold createInstance at h
  split at h
  · split at h
    · cases h
    · simp only [Option.some.injEq, Prod.mk.injEq] at h
      obtain ⟨hr, ha, -⟩ := h
      subst hr ha
      exact ⟨rfl, rfl, rfl, fun hok => by cases hok⟩
    · split at h
      · simp only [Option.some.injEq, Prod.mk.injEq] at h
        obtain ⟨hr, ha, -⟩ := h
        subst hr ha
        exact ⟨rfl, rfl, rfl, fun hok => by cases hok⟩
      · simp only [Option.some.injEq, Prod.mk.injEq] at h
        obtain ⟨hr, ha, -⟩ := h
        subst hr ha
        exact hb
  · simp only [Option.some.injEq] at h
    have h1 : (createInstanceBody enableValidationLayers rt app).1 = r := by rw [h]
    have h2 : (createInstanceBody enableValidationLayers rt app).2.1 = app' := by rw [h]
    rw [← h1, ← h2]
    exact hb

theorem pickPhysicalDevice_members (rt : Runtime) (app : HelloTriangleApplication) :
    (pickPhysicalDevice rt app).2.1.surface = app.surface ∧
    (pickPhysicalDevice rt app).2.1.device = app.device ∧
    (pickPhysicalDevice rt app).2.1.window = app.window ∧
    (pickPhysicalDevice rt app).2.1.instanceHandle = app.instanceHandle := by
  unfold pickPhysicalDevice
  by_cases hlen : rt.physicalDevices.length = 0
  · simp [hlen]
  · simp only [hlen, if_false]
    generalize pickPhysicalDeviceLoop rt rt.physicalDevices app.physicalDevice = r
    obtain ⟨pd, calls⟩ := r
    cases pd with
    | indeterminate => simp
    | val h => by_cases hh : h = VK_NULL_HANDLE <;> simp [hh]

/-- Every run that returns normally ends with the five calls of `cleanup`, in
the order of lines 72-80, on the members as the constructor and `initWindow`
and `createInstance` left them. -/
theorem run_ok_calls (enableValidationLayers : Bool) (fuel : Nat) (rt : Runtime)
    (app : HelloTriangleApplication) (calls : List Call)
    (h : run enableValidationLayers fuel rt HelloTriangleApplication.new =
      some (.ok (), app, calls)) :
    ∃ before instanceHandle,
      calls = before ++
        [Call.vkDestroySurfaceKHR (.val instanceHandle) .indeterminate,
         Call.vkDestroyInstance (.val instanceHandle),
         Call.vkDestroyDevice (.val VK_NULL_HANDLE),
         Call.glfwDestroyWindow (.val rt.createdWindow),
         Call.glfwTerminate] := by
  simp only [run, initWindow, initVulkan] at h
  split at h
  · cases h
  · cases h
  · rename_i app2 started hinit
    split at hinit
    · cases hinit
    · cases hinit
    · rename_i app1 created hcreate
      have hc := createInstance_members _ _ _ _ _ _ _ hcreate
      have hp := pickPhysicalDevice_members rt app1
      simp only [Option.some.injEq, Prod.mk.injEq] at hinit
      obtain ⟨hr, happ, -⟩ := hinit
      obtain ⟨hh, hinst⟩ := hc.2.2.2 rfl
      split at h
      · cases h
      · rename_i looped hloop
        simp only [Option.some.injEq, Prod.mk.injEq, true_and] at h
        obtain ⟨happ', hcalls⟩ := h
        subst happ'
        refine ⟨[Call.glfwInit, Call.glfwWindowHint GLFW_CLIENT_API GLFW_NO_API,
          Call.glfwWindowHint GLFW_RESIZABLE GLFW_FALSE,
          Call.glfwCreateWindow WIDTH HEIGHT "Vulkan"] ++ started ++ looped, hh, ?_⟩
        rw [← hcalls]
        congr 1
        simp only [cleanup, ← happ, hp.1, hp.2.1, hp.2.2.1, hp.2.2.2, hc.1, hc.2.1, hc.2.2.1,
          hinst]
        rfl

/-- C7 on a run that returns normally (validation layers disabled, instance
creation succeeds with handle 7, one suitable device, the window reports
close at the first test): `cleanup` calls `vkDestroySurfaceKHR`, then
`vkDestroyInstance`, then `vkDestroyDevice`, so the instance is destroyed
before the logical device and is not the last runtime object destroyed. -/
theorem run_destroys_instance_before_device :
    run false 1 (oneDeviceRuntime [VK_QUEUE_GRAPHICS_BIT] true) HelloTriangleApplication.new =
      some (.ok (),
        { HelloTriangleApplication.new with
          window := .val 5, instanceHandle := .val 7, physicalDevice := .val 1 },
        [Call.glfwInit,
         Call.glfwWindowHint GLFW_CLIENT_API GLFW_NO_API,
         Call.glfwWindowHint GLFW_RESIZABLE GLFW_FALSE,
         Call.glfwCreateWindow WIDTH HEIGHT "Vulkan",
         Call.glfwGetRequiredInstanceExtensions,
         Call.vkCreateInstance
           (instanceCreateInfo false (oneDeviceRuntime [VK_QUEUE_GRAPHICS_BIT] true)),
         Call.vkEnumeratePhysicalDevices (.val 7),
         Call.vkEnumeratePhysicalDevices (.val 7),
         Call.vkGetPhysicalDeviceProperties 1,
         Call.vkGetPhysicalDeviceFeatures 1,
         Call.vkGetPhysicalDeviceQueueFamilyProperties 1,
         Call.vkGetPhysicalDeviceQueueFamilyProperties 1,
         Call.glfwWindowShouldClose (.val 5),
         Call.vkDestroySurfaceKHR (.val 7) .indeterminate,
         Call.vkDestroyInstance (.val 7),
         Call.vkDestroyDevice (.val VK_NULL_HANDLE),
         Call.glfwDestroyWindow (.val 5),
         Call.glfwTerminate]) := by
  rfl

/-- C10 on a run that returns normally (validation layers disabled, devices
11, 12, 13, the window reports close at the third test): the constructor
leaves `surface` unassigned, no call before `cleanup` creates a surface, and
`vkDestroySurfaceKHR` is given the unassigned `surface`. -/
theorem run_destroys_unassigned_surface :
    HelloTriangleApplication.new.surface = .indeterminate ∧
    ∃ app before after,
      run false 3 threeDeviceRuntime HelloTriangleApplication.new =
        some (.ok (), app,
          before ++ Call.vkDestroySurfaceKHR (.val 7) .indeterminate :: after) ∧
      app.surface = .indeterminate ∧
      (∀ instanceHandle window, Call.glfwCreateWindowSurface instanceHandle window ∉ before) ∧
      (∀ instanceHandle surface, Call.vkDestroySurfaceKHR instanceHandle surface ∉ before) :=
  ⟨rfl,
   { HelloTriangleApplication.new with
     window := .val 5, instanceHandle := .val 7, physicalDevice := .val 12 },
   [Call.glfwInit,
    Call.glfwWindowHint GLFW_CLIENT_API GLFW_NO_API,
    Call.glfwWindowHint GLFW_RESIZABLE GLFW_FALSE,
    Call.glfwCreateWindow WIDTH HEIGHT "Vulkan",
    Call.glfwGetRequiredInstanceExtensions,
    Call.vkCreateInstance (instanceCreateInfo false threeDeviceRuntime),
    Call.vkEnumeratePhysicalDevices (.val 7),
    Call.vkEnumeratePhysicalDevices (.val 7),
    Call.vkGetPhysicalDeviceProperties 11,
    Call.vkGetPhysicalDeviceFeatures 11,
    Call.vkGetPhysicalDeviceQueueFamilyProperties 11,
    Call.vkGetPhysicalDeviceQueueFamilyProperties 11,
    Call.vkGetPhysicalDeviceProperties 12,
    Call.vkGetPhysicalDeviceFeatures 12,
    Call.vkGetPhysicalDeviceQueueFamilyProperties 12,
    Call.vkGetPhysicalDeviceQueueFamilyProperties 12,
    Call.glfwWindowShouldClose (.val 5),
    Call.glfwPollEvents,
    Call.glfwWindowShouldClose (.val 5),
    Call.glfwPollEvents,
    Call.glfwWindowShouldClose (.val 5)],
   [Call.vkDestroyInstance (.val 7),
    Call.vkDestroyDevice (.val VK_NULL_HANDLE),
    Call.glfwDestroyWindow (.val 5),
    Call.glfwTerminate],
   rfl, rfl, by intro i w; simp, by intro i w; simp⟩

end VulkanTest
